import Mathlib

/-!
Verification development for the fnmock repository: a Rust function-level
test-double library.  The repository contains a procedural-macro transformer
(`fnmock-derive`, `mock-lib-derive`) that rewrites annotated functions into a
call path dispatching to a runtime double (mock, fake or stub), plus example
projects.  The runtime crate (`fnmock::function_mock::FunctionMock` etc.) is
not among the provided sources; its behaviour is modelled from the spec.
Token-generation logic of the transformer is embedded from the source files.
-/

/-- Symbolic Rust types, as they appear in the token streams the transformer
emits.  `tuple []` is Rust's unit type `()`; `fnPtr a r` is `fn(a) -> r`;
`future t` stands for an `impl Future<Output = t>` type, which the generated
storage never mentions. -/
inductive RustTy where
  | base : String → RustTy
  | tuple : List RustTy → RustTy
  | fnPtr : RustTy → RustTy → RustTy
  | future : RustTy → RustTy

/-- Symbolic Rust tuple expressions built from parameter names, as produced by
`create_tuple_from_param_names` in `mock-lib-derive/src/lib.rs`. -/
inductive TupleExpr where
  | unit : TupleExpr
  | name : String → TupleExpr
  | tuple : List String → TupleExpr
deriving DecidableEq, Repr

/-- Embeds `create_param_type` (`mock-lib-derive/src/lib.rs` lines 17-32):
one parameter yields that parameter's own type; any other arity yields the
tuple of all parameter types (`()` for zero parameters). -/
def create_param_type : List RustTy → RustTy
  | [t] => t
  | ts => RustTy.tuple ts

/-- Embeds `create_tuple_from_param_names` (`mock-lib-derive/src/lib.rs`
lines 34-52): no names yields `()`, one name yields the bare name, two or
more yield a tuple expression. -/
def create_tuple_from_param_names : List String → TupleExpr
  | [] => TupleExpr.unit
  | [n] => TupleExpr.name n
  | ns => TupleExpr.tuple ns

/-- Embeds the return-type extraction of `mock-lib-derive/src/lib.rs` lines
72-75 (and the behaviour of `extract_return_type` used by `fnmock-derive`):
a default return type is `()`, otherwise the written type itself — for an
`async fn` Rust's signature stores the written (synchronous) output type. -/
def extract_return_type : Option RustTy → RustTy
  | none => RustTy.tuple []
  | some t => t

/-- Errors raised by the runtime doubles.  Modelled from the spec:
`NotConfigured{name}` for dispatch without a configured implementation or
value, `AssertionFailure{name, expected, actual}` for failed assertions,
carrying the expected versus actual call count or the expected parameters
versus the logged entries. -/
inductive FnError (P : Type) where
  | notConfigured (name : String)
  | assertionFailureTimes (name : String) (expected actual : Nat)
  | assertionFailureWith (name : String) (expected : P) (logged : List P)
deriving DecidableEq, Repr

/-- Modelled from the spec: the runtime `fnmock::function_mock::FunctionMock`
state (the runtime crate is not among the provided sources).  A mock double
holds its diagnostic name, an optional configured implementation and the
ordered call log. -/
structure FunctionMock (P R : Type) where
  name : String
  implementation : Option (P → R)
  calls : List P

/-- Modelled from the spec: construction sets the name, no implementation,
empty log. -/
def FunctionMock.new (name : String) : FunctionMock P R :=
  { name := name, implementation := none, calls := [] }

/-- Modelled from the spec: `setup` stores the implementation, replacing any
previous one. -/
def FunctionMock.setup (m : FunctionMock P R) (f : P → R) : FunctionMock P R :=
  { m with implementation := some f }

/-- Modelled from the spec: `is_set` reports whether an implementation is
configured. -/
def FunctionMock.is_set (m : FunctionMock P R) : Bool :=
  m.implementation.isSome

/-- Modelled from the spec: `call` appends the parameters to the call log
unconditionally, then invokes the configured implementation or fails with
`NotConfigured` carrying the double's name. -/
def FunctionMock.call (m : FunctionMock P R) (p : P) :
    FunctionMock P R × Except (FnError P) R :=
  let logged := { m with calls := m.calls ++ [p] }
  match m.implementation with
  | some f => (logged, Except.ok (f p))
  | none => (logged, Except.error (FnError.notConfigured m.name))

/-- Modelled from the spec: `clear` discards the implementation and empties
the call log, returning the instance to its constructed state. -/
def FunctionMock.clear (m : FunctionMock P R) : FunctionMock P R :=
  { m with implementation := none, calls := [] }

/-- Modelled from the spec: `assert_times` succeeds exactly when the call log
length equals the expected count, otherwise fails with an assertion failure
carrying expected and actual counts. -/
def FunctionMock.assert_times (m : FunctionMock P R) (expected : Nat) :
    Except (FnError P) Unit :=
  if m.calls.length = expected then Except.ok ()
  else Except.error (FnError.assertionFailureTimes m.name expected m.calls.length)

/-- Modelled from the spec: `assert_with` scans the log in order and succeeds
on the first entry equal by value to the expected parameters, otherwise fails
with an assertion failure carrying the expected parameters and the log. -/
def FunctionMock.assert_with [DecidableEq P] (m : FunctionMock P R) (p : P) :
    Except (FnError P) Unit :=
  match m.calls.find? (fun q => q = p) with
  | some _ => Except.ok ()
  | none => Except.error (FnError.assertionFailureWith m.name p m.calls)

/-- Modelled from the spec: the runtime `fnmock::function_fake::FunctionFake`
state, parameterised over the stored function type exactly as the generated
code instantiates it (`FunctionFake<fn(Params) -> Return>`). -/
structure FunctionFake (F : Type) where
  name : String
  implementation : Option F

/-- Modelled from the spec: fake construction sets the name and no
implementation. -/
def FunctionFake.new (name : String) : FunctionFake F :=
  { name := name, implementation := none }

/-- Modelled from the spec: fake `setup` stores the implementation, replacing
any previous one. -/
def FunctionFake.setup (k : FunctionFake F) (f : F) : FunctionFake F :=
  { k with implementation := some f }

/-- Modelled from the spec: fake `is_set`. -/
def FunctionFake.is_set (k : FunctionFake F) : Bool :=
  k.implementation.isSome

/-- Modelled from the spec: fake `clear` discards the implementation. -/
def FunctionFake.clear (k : FunctionFake F) : FunctionFake F :=
  { k with implementation := none }

/-- Modelled from the spec: `get_implementation` returns the configured
implementation or fails with `NotConfigured`. -/
def FunctionFake.get_implementation (k : FunctionFake F) :
    Except (FnError Unit) F :=
  match k.implementation with
  | some f => Except.ok f
  | none => Except.error (FnError.notConfigured k.name)

/-- Modelled from the spec: the runtime `fnmock::function_stub::FunctionStub`
state: a name and an optional stored return value. -/
structure FunctionStub (R : Type) where
  name : String
  value : Option R
deriving DecidableEq, Repr

/-- Modelled from the spec: stub construction sets the name and no value. -/
def FunctionStub.new (name : String) : FunctionStub R :=
  { name := name, value := none }

/-- Modelled from the spec: stub `setup` stores the value, replacing any
prior value. -/
def FunctionStub.setup (s : FunctionStub R) (v : R) : FunctionStub R :=
  { s with value := some v }

/-- Modelled from the spec: stub `is_set`. -/
def FunctionStub.is_set (s : FunctionStub R) : Bool :=
  s.value.isSome

/-- Modelled from the spec: stub `clear` discards the stored value. -/
def FunctionStub.clear (s : FunctionStub R) : FunctionStub R :=
  { s with value := none }

/-- Modelled from the spec: `get_return_value` yields a duplicate of the
stored value (duplication is the identity in this pure model) or fails with
`NotConfigured`; the stored value is never consumed. -/
def FunctionStub.get_return_value (s : FunctionStub R) :
    Except (FnError Unit) R :=
  match s.value with
  | some v => Except.ok v
  | none => Except.error (FnError.notConfigured s.name)

/-- Build mode of the compiled crate: the generated code's `#[cfg(test)]`
items exist only in `test` builds. -/
inductive BuildMode where
  | production
  | test
deriving DecidableEq, Repr

/-- Embeds the function body emitted by `create_mock_function`
(`fnmock-derive/src/function_mock/create_mock_implementation.rs` lines
36-48): in test builds, if the mock is set the call is forwarded to
`mock::call(params)`; otherwise (and always in non-test builds) the original
statements run.  The pair returned is the mock state after the call together
with the call's result. -/
def mockGeneratedFn (mode : BuildMode) (m : FunctionMock P R)
    (originalBody : P → R) (p : P) : FunctionMock P R × Except (FnError P) R :=
  match mode with
  | BuildMode.production => (m, Except.ok (originalBody p))
  | BuildMode.test =>
      if m.is_set then m.call p
      else (m, Except.ok (originalBody p))

/-- Embeds the function body emitted by `create_fake_function`
(`fnmock-derive/src/function_fake/create_fake_implementation.rs` lines
37-48): in test builds, if the fake is set the call is forwarded to
`fake::get_implementation()(params)`; otherwise (and always in non-test
builds) the original statements run. -/
def fakeGeneratedFn {P R : Type} (mode : BuildMode) (k : FunctionFake (P → R))
    (originalBody : P → R) (p : P) : Except (FnError Unit) R :=
  match mode with
  | BuildMode.production => Except.ok (originalBody p)
  | BuildMode.test =>
      if k.is_set then k.get_implementation.map (fun f => f p)
      else Except.ok (originalBody p)

/-- Embeds the function body emitted by `create_stub_function`
(`fnmock-derive/src/function_stub/create_stub_implementation.rs` lines
20-25): the generated `_stub`-suffixed function's body is exactly
`#stub_fn_name::get_return_value()` — no build-mode guard, no `is_set`
check and no fallback to the original body. -/
def stubGeneratedFn (s : FunctionStub R) : Except (FnError Unit) R :=
  s.get_return_value

/-- Embeds `generate_single_import`
(`fnmock-derive/src/use_statement_processor.rs` lines 79-92): the call site
binds to the original item in non-test builds and to the suffixed
(`_mock`/`_fake`/`_stub`) item in test builds. -/
def useStatementBinding {α : Type _} (mode : BuildMode) (original modified : α) : α :=
  match mode with
  | BuildMode.production => original
  | BuildMode.test => modified

/-- The items of the module emitted by `create_mock_module`
(`fnmock-derive/src/function_mock/create_mock_implementation.rs` lines
85-137), recording which type expression appears at each site of the quoted
token stream. -/
structure MockModuleSig where
  storageParamsTy : RustTy
  storageReturnTy : RustTy
  callParamTy : RustTy
  callReturnTy : RustTy
  setupFnTy : RustTy
  assertWithInputs : List (String × RustTy)
  assertWithForwarded : TupleExpr

/-- Embeds `create_mock_module`'s quoted items: the thread-local storage is
`FunctionMock<#params_type, #return_type>` (lines 89-94), `call` takes
`params: #params_type` (line 97), `setup` takes
`new_f: fn(#params_type) -> #return_type` (line 104), and `assert_with`
takes `#filtered_fn_inputs` and forwards `#params_to_tuple` (lines
131-136).  Each occurrence of `#params_type` is the same interpolated
variable. -/
def create_mock_module (params_type return_type : RustTy)
    (params_to_tuple : TupleExpr)
    (filtered_fn_inputs : List (String × RustTy)) : MockModuleSig :=
  { storageParamsTy := params_type
    storageReturnTy := return_type
    callParamTy := params_type
    callReturnTy := return_type
    setupFnTy := RustTy.fnPtr params_type return_type
    assertWithInputs := filtered_fn_inputs
    assertWithForwarded := params_to_tuple }

/-- The items of the module emitted by `mock_function` in
`mock-lib-derive/src/lib.rs` (lines 78-127): the `_mock` entry function
forwards `#params_to_tuple` to `call`, and the module's `call`,
`mock_implementation` and `assert_with` all use the single `Params` type
alias bound to `#params_type`. -/
structure MockLibModuleSig where
  paramsTy : RustTy
  returnTy : RustTy
  callParamTy : RustTy
  mockImplementationFnTy : RustTy
  assertWithParamTy : RustTy
  callForwarded : TupleExpr

/-- Embeds the `mock_function` macro body of `mock-lib-derive/src/lib.rs`
lines 54-130: `params_type` from `create_param_type`, the forwarded tuple
from `create_tuple_from_param_names`, the return type from the match on
`sig.output` (lines 72-75), and the generated module from lines 78-127. -/
def mock_lib_generated_module (fn_input_tys : List RustTy)
    (fn_input_names : List String) (output : Option RustTy) : MockLibModuleSig :=
  let params_type := create_param_type fn_input_tys
  let return_type := extract_return_type output
  { paramsTy := params_type
    returnTy := return_type
    callParamTy := params_type
    mockImplementationFnTy := RustTy.fnPtr params_type return_type
    assertWithParamTy := params_type
    callForwarded := create_tuple_from_param_names fn_input_names }

/-- Embeds the storage type of `create_fake_module`
(`fnmock-derive/src/function_fake/create_fake_implementation.rs` lines
81-84): the thread-local holds `FunctionFake<fn(#params_type) ->
#return_type>`, a synchronous function-pointer type. -/
def fakeStorageFnTy (params_type return_type : RustTy) : RustTy :=
  RustTy.fnPtr params_type return_type

/-- Embeds the implementation type stored via `setup` of `create_mock_module`
(line 104): `fn(#params_type) -> #return_type`, a synchronous
function-pointer type. -/
def mockStorageFnTy (params_type return_type : RustTy) : RustTy :=
  RustTy.fnPtr params_type return_type

/-- Embeds the storage type of `create_stub_module`
(`fnmock-derive/src/function_stub/create_stub_implementation.rs` lines
48-51): the thread-local holds `FunctionStub<#return_type>`. -/
def stubStorageValueTy (return_type : RustTy) : RustTy :=
  return_type

mutual

/-- Whether a symbolic Rust type mentions a future (asynchronous) type. -/
def RustTy.hasFuture : RustTy → Bool
  | RustTy.base _ => false
  | RustTy.tuple ts => RustTy.listHasFuture ts
  | RustTy.fnPtr a r => a.hasFuture || r.hasFuture
  | RustTy.future _ => true

/-- Whether any type in a list mentions a future type. -/
def RustTy.listHasFuture : List RustTy → Bool
  | [] => false
  | t :: ts => t.hasFuture || RustTy.listHasFuture ts

end

/-- The asynchronous calling convention, shallowly: a future that resolves to
its value. -/
structure RustFuture (R : Type) where
  value : R

/-- Embeds the body emitted by `create_mock_function` for an `async fn`
original (`#fn_asyncness` interpolated at line 38): the synchronous body
result is wrapped into the asynchronous calling convention at the function
boundary, as Rust does for the body of an `async fn`. -/
def mockGeneratedFnAsync (mode : BuildMode) (m : FunctionMock P R)
    (originalBody : P → R) (p : P) :
    FunctionMock P R × RustFuture (Except (FnError P) R) :=
  ((mockGeneratedFn mode m originalBody p).1,
    RustFuture.mk (mockGeneratedFn mode m originalBody p).2)

/-- Embeds the body emitted by `create_fake_function` for an `async fn`
original (`#fn_asyncness` interpolated at line 38 of
`create_fake_implementation.rs`): the synchronous result of the configured
implementation is wrapped into the asynchronous calling convention. -/
def fakeGeneratedFnAsync {P R : Type} (mode : BuildMode)
    (k : FunctionFake (P → R)) (originalBody : P → R) (p : P) :
    RustFuture (Except (FnError Unit) R) :=
  RustFuture.mk (fakeGeneratedFn mode k originalBody p)

/-- Embeds the body emitted by `create_stub_function` for an `async fn`
original (`#fn_asyncness` interpolated at line 21 of
`create_stub_implementation.rs`): the synchronous stored value is wrapped
into the asynchronous calling convention. -/
def stubGeneratedFnAsync (s : FunctionStub R) :
    RustFuture (Except (FnError Unit) R) :=
  RustFuture.mk (stubGeneratedFn s)

/-- Operations of the generated mock module
(`create_mock_implementation.rs` lines 96-136). -/
inductive MockOp (P R : Type) where
  | setup (f : P → R)
  | call (p : P)
  | clear
  | is_set
  | assert_times (n : Nat)
  | assert_with (p : P)

/-- State effect of each mock operation: `setup`, `call` and `clear` mutate
the thread-local instance; the queries leave it unchanged. -/
def mockApplyOp : MockOp P R → FunctionMock P R → FunctionMock P R
  | MockOp.setup f, m => m.setup f
  | MockOp.call p, m => (m.call p).1
  | MockOp.clear, m => m.clear
  | MockOp.is_set, m => m
  | MockOp.assert_times _, m => m
  | MockOp.assert_with _, m => m

/-- Observable result of each mock operation. -/
inductive MockOpResult (P R : Type) where
  | unit
  | value (r : Except (FnError P) R)
  | flag (b : Bool)
  | assertion (a : Except (FnError P) Unit)

/-- The observable outcome of a mock operation, a function of the one
instance it runs on. -/
def mockOpResult [DecidableEq P] : MockOp P R → FunctionMock P R → MockOpResult P R
  | MockOp.setup _, _ => MockOpResult.unit
  | MockOp.call p, m => MockOpResult.value (m.call p).2
  | MockOp.clear, _ => MockOpResult.unit
  | MockOp.is_set, m => MockOpResult.flag m.is_set
  | MockOp.assert_times n, m => MockOpResult.assertion (m.assert_times n)
  | MockOp.assert_with p, m => MockOpResult.assertion (m.assert_with p)

/-- Operations of the generated fake module. -/
inductive FakeOp (F : Type) where
  | setup (f : F)
  | clear
  | is_set
  | get_implementation

/-- State effect of each fake operation. -/
def fakeApplyOp : FakeOp F → FunctionFake F → FunctionFake F
  | FakeOp.setup f, k => k.setup f
  | FakeOp.clear, k => k.clear
  | FakeOp.is_set, k => k
  | FakeOp.get_implementation, k => k

/-- Operations of the generated stub module. -/
inductive StubOp (R : Type) where
  | setup (v : R)
  | clear
  | is_set
  | get_return_value

/-- State effect of each stub operation. -/
def stubApplyOp : StubOp R → FunctionStub R → FunctionStub R
  | StubOp.setup v, s => s.setup v
  | StubOp.clear, s => s.clear
  | StubOp.is_set, s => s
  | StubOp.get_return_value, s => s

/-- The per-context storage of double instances: the `thread_local!` statics
of the generated modules (`create_mock_implementation.rs` lines 89-94,
`create_stub_implementation.rs` lines 48-51) modelled as a map from
execution context and double identity to the instance's state.  An operation
runs against exactly the entry of the current context and the operated
module's static. -/
def storeApply {C I S Op : Type} [DecidableEq C] [DecidableEq I]
    (step : Op → S → S) (store : C → I → S) (c : C) (i : I) (op : Op) :
    C → I → S :=
  fun c' i' => if c' = c ∧ i' = i then step op (store c i) else store c' i'

/-- Folding a sequence of recorded calls over a mock, keeping only the state:
the shape of a test that invokes the mocked function repeatedly. -/
def runCalls (ps : List P) (m : FunctionMock P R) : FunctionMock P R :=
  ps.foldl (fun acc p => (acc.call p).1) m

theorem FunctionMock.call_fst {P R : Type} (m : FunctionMock P R) (p : P) :
    (m.call p).1 = { m with calls := m.calls ++ [p] } := by
  cases h : m.implementation <;> simp [FunctionMock.call, h]

theorem runCalls_calls {P R : Type} (ps : List P) (m : FunctionMock P R) :
    (runCalls ps m).calls = m.calls ++ ps := by
  induction ps generalizing m with
  | nil => simp [runCalls]
  | cons p ps ih =>
      simp only [runCalls, List.foldl_cons]
      rw [show (List.foldl (fun acc q => (acc.call q).1) ((m.call p).1) ps) =
        runCalls ps ((m.call p).1) from rfl, ih, FunctionMock.call_fst]
      simp

theorem runCalls_name {P R : Type} (ps : List P) (m : FunctionMock P R) :
    (runCalls ps m).name = m.name := by
  induction ps generalizing m with
  | nil => rfl
  | cons p ps ih =>
      simp only [runCalls, List.foldl_cons]
      rw [show (List.foldl (fun acc q => (acc.call q).1) ((m.call p).1) ps) =
        runCalls ps ((m.call p).1) from rfl, ih, FunctionMock.call_fst]

theorem FunctionMock.assert_with_ok_iff {P R : Type} [DecidableEq P]
    (m : FunctionMock P R) (p : P) :
    m.assert_with p = Except.ok () ↔ p ∈ m.calls := by
  unfold FunctionMock.assert_with
  cases h : m.calls.find? (fun q => q = p) with
  | none =>
      simp only [List.find?_eq_none] at h
      simp only [reduceCtorEq, false_iff]
      intro hmem
      exact absurd (decide_eq_true rfl) (h p hmem)
  | some q =>
      have hq := List.find?_some h
      have hmem := List.mem_of_find?_eq_some h
      simp only [decide_eq_true_eq] at hq
      subst hq
      simp [hmem]

/-- C3: for every mock, `call(params)` appends `params` to the call log
unconditionally, then returns the configured implementation's result when one
is configured and otherwise fails with `NotConfigured` carrying the double's
name; in the unconfigured case the appended entry still counts toward
`assert_times`, so log growth and failure are independent. -/
theorem C3_mock_call_semantics :
    ∀ {P R : Type} (m : FunctionMock P R) (p : P),
      ((m.call p).1.calls = m.calls ++ [p]) ∧
      (∀ f, m.implementation = some f → (m.call p).2 = Except.ok (f p)) ∧
      (m.implementation = none →
        (m.call p).2 = Except.error (FnError.notConfigured m.name)) ∧
      (m.implementation = none →
        (m.call p).1.assert_times (m.calls.length + 1) = Except.ok ()) := by
  intro P R m p
  refine ⟨by rw [FunctionMock.call_fst], ?_, ?_, ?_⟩
  · intro f hf
    simp [FunctionMock.call, hf]
  · intro h
    simp [FunctionMock.call, h]
  · intro h
    rw [FunctionMock.call_fst]
    simp [FunctionMock.assert_times]

/-- Witness for C3 at a concrete mock: a configured `fetch_user` mock returns
the implementation's value, and an unconfigured one fails with
`NotConfigured` while still logging. -/
theorem C3_mock_call_semantics_witness :
    ((((FunctionMock.new "fetch_user" : FunctionMock Nat Nat).setup
        (fun n => n + 1)).call 5).2 = Except.ok 6) ∧
    (((FunctionMock.new "fetch_user" : FunctionMock Nat Nat).call 5).2 =
      Except.error (FnError.notConfigured "fetch_user")) ∧
    (((FunctionMock.new "fetch_user" : FunctionMock Nat Nat).call 5).1.assert_times 1 =
      Except.ok ()) := by
  refine ⟨?_, ?_, ?_⟩
  · exact (C3_mock_call_semantics
      ((FunctionMock.new "fetch_user" : FunctionMock Nat Nat).setup
        (fun n => n + 1)) 5).2.1 (fun n => n + 1) rfl
  · exact (C3_mock_call_semantics
      (FunctionMock.new "fetch_user" : FunctionMock Nat Nat) 5).2.2.1 rfl
  · exact (C3_mock_call_semantics (FunctionMock.new "fetch_user") 5).2.2.2 rfl

/-- C4: for every double kind, immediately after construction `is_set()` is
false and every dispatch operation (`call`, `get_implementation`,
`get_return_value`) fails with `NotConfigured`; dispatch succeeds exactly
when an implementation or value is configured. -/
theorem C4_fresh_unconfigured_dispatch :
    ∀ {P R F : Type} (name : String) (p : P),
      ((FunctionMock.new name : FunctionMock P R).is_set = false) ∧
      (((FunctionMock.new name : FunctionMock P R).call p).2 =
        Except.error (FnError.notConfigured name)) ∧
      ((FunctionFake.new name : FunctionFake F).is_set = false) ∧
      ((FunctionFake.new name : FunctionFake F).get_implementation =
        Except.error (FnError.notConfigured name)) ∧
      ((FunctionStub.new name : FunctionStub R).is_set = false) ∧
      ((FunctionStub.new name : FunctionStub R).get_return_value =
        Except.error (FnError.notConfigured name)) ∧
      (∀ m : FunctionMock P R,
        (∃ v, (m.call p).2 = Except.ok v) ↔ m.is_set = true) ∧
      (∀ k : FunctionFake F,
        (∃ f, k.get_implementation = Except.ok f) ↔ k.is_set = true) ∧
      (∀ s : FunctionStub R,
        (∃ v, s.get_return_value = Except.ok v) ↔ s.is_set = true) := by
  intro P R F name p
  refine ⟨rfl, rfl, rfl, rfl, rfl, rfl, ?_, ?_, ?_⟩
  · intro m
    cases h : m.implementation <;>
      simp [FunctionMock.call, FunctionMock.is_set, h]
  · intro k
    cases h : k.implementation <;>
      simp [FunctionFake.get_implementation, FunctionFake.is_set, h]
  · intro s
    cases h : s.value <;>
      simp [FunctionStub.get_return_value, FunctionStub.is_set, h]

/-- C5: `assert_times(expected)` succeeds exactly when the call log length
equals `expected` and otherwise fails with an `AssertionFailure`; after `n`
recorded calls `assert_times(n)` succeeds; and `assert_times` never mutates
the mock's state. -/
theorem C5_assert_times_spec :
    ∀ {P R : Type} (m : FunctionMock P R) (n : Nat) (ps : List P)
      (name : String),
      (m.assert_times n = Except.ok () ↔ m.calls.length = n) ∧
      (m.calls.length ≠ n → m.assert_times n =
        Except.error (FnError.assertionFailureTimes m.name n m.calls.length)) ∧
      ((runCalls ps (FunctionMock.new name : FunctionMock P R)).calls = ps) ∧
      ((runCalls ps (FunctionMock.new name : FunctionMock P R)).assert_times
        ps.length = Except.ok ()) ∧
      (mockApplyOp (MockOp.assert_times n) m = m) := by
  intro P R m n ps name
  refine ⟨?_, ?_, ?_, ?_, rfl⟩
  · unfold FunctionMock.assert_times
    by_cases h : m.calls.length = n <;> simp [h]
  · intro h
    simp [FunctionMock.assert_times, h]
  · rw [runCalls_calls]
    rfl
  · have hc : (runCalls ps (FunctionMock.new name : FunctionMock P R)).calls = ps := by
      rw [runCalls_calls]; rfl
    simp [FunctionMock.assert_times, hc]

/-- Witness for C5 at a concrete mock: after two calls, `assert_times 2`
succeeds and `assert_times 3` fails with the expected and actual counts. -/
theorem C5_assert_times_spec_witness :
    ((runCalls [1, 2] (FunctionMock.new "f" : FunctionMock Nat Nat)).assert_times 2 =
      Except.ok ()) ∧
    ((runCalls [1, 2] (FunctionMock.new "f" : FunctionMock Nat Nat)).assert_times 3 =
      Except.error (FnError.assertionFailureTimes "f" 3 2)) := by
  constructor
  · exact (C5_assert_times_spec (FunctionMock.new "f") 2 [1, 2] "f").2.2.2.1
  · exact (C5_assert_times_spec
      (runCalls [1, 2] (FunctionMock.new "f" : FunctionMock Nat Nat)) 3 [] "f").2.1
      (by rw [runCalls_calls]; decide)

/-- C6: `assert_with(params)` succeeds exactly when the call log contains an
entry equal by value to `params` (entries are scanned in log order,
succeeding on the first match); it succeeds for every logged entry and fails
with an `AssertionFailure` for a value equal to no logged entry. -/
theorem C6_assert_with_spec :
    ∀ {P R : Type} [DecidableEq P] (m : FunctionMock P R) (p : P)
      (ps : List P) (name : String),
      (m.assert_with p = Except.ok () ↔ p ∈ m.calls) ∧
      (p ∉ m.calls → m.assert_with p =
        Except.error (FnError.assertionFailureWith m.name p m.calls)) ∧
      (p ∈ ps →
        (runCalls ps (FunctionMock.new name : FunctionMock P R)).assert_with p =
          Except.ok ()) := by
  intro P R _ m p ps name
  refine ⟨FunctionMock.assert_with_ok_iff m p, ?_, ?_⟩
  · intro hnot
    unfold FunctionMock.assert_with
    cases h : m.calls.find? (fun q => q = p) with
    | none => rfl
    | some q =>
        have hq := List.find?_some h
        have hmem := List.mem_of_find?_eq_some h
        simp only [decide_eq_true_eq] at hq
        exact absurd (hq ▸ hmem) hnot
  · intro hp
    rw [FunctionMock.assert_with_ok_iff, runCalls_calls,
      show (FunctionMock.new name : FunctionMock P R).calls = [] from rfl]
    simpa using hp

/-- Witness for C6 at a concrete mock: after calls with 42 and 7,
`assert_with 42` succeeds and `assert_with 99` fails carrying the log. -/
theorem C6_assert_with_spec_witness :
    ((runCalls [42, 7] (FunctionMock.new "fetch_user" : FunctionMock Nat Nat)).assert_with 42 =
      Except.ok ()) ∧
    ((runCalls [42, 7] (FunctionMock.new "fetch_user" : FunctionMock Nat Nat)).assert_with 99 =
      Except.error (FnError.assertionFailureWith "fetch_user" 99 [42, 7])) := by
  constructor
  · exact (C6_assert_with_spec (FunctionMock.new "fetch_user") 42 [42, 7]
      "fetch_user").2.2 (by decide)
  · have h := (C6_assert_with_spec
      (runCalls [42, 7] (FunctionMock.new "fetch_user" : FunctionMock Nat Nat))
      99 [] "fetch_user").2.1 (by rw [runCalls_calls]; decide)
    rw [h, runCalls_calls, runCalls_name]
    rfl

/-- C7: for every double of any kind and any state, after `setup(x)` the
double reports `is_set() == true`, and `clear()` returns a state equal to a
freshly constructed instance of the same name (no configured implementation
or value, and for mocks an empty call log), with `is_set() == false`. -/
theorem C7_setup_clear_lifecycle :
    ∀ {P R F : Type} (m : FunctionMock P R) (f : P → R) (k : FunctionFake F)
      (g : F) (s : FunctionStub R) (v : R),
      ((m.setup f).is_set = true) ∧
      (m.clear = FunctionMock.new m.name) ∧
      (m.clear.is_set = false) ∧
      ((k.setup g).is_set = true) ∧
      (k.clear = FunctionFake.new k.name) ∧
      (k.clear.is_set = false) ∧
      ((s.setup v).is_set = true) ∧
      (s.clear = FunctionStub.new s.name) ∧
      (s.clear.is_set = false) := by
  intro P R F m f k g s v
  exact ⟨rfl, rfl, rfl, rfl, rfl, rfl, rfl, rfl, rfl⟩

/-- C9: operations on one double instance — addressed by execution context
and double identity in the per-context store — leave the full state of every
other instance unchanged, and the observable result of any operation on the
other instance is likewise unchanged. -/
theorem C9_isolation_frame :
    ∀ {C I P R F S : Type} [DecidableEq C] [DecidableEq I] [DecidableEq P]
      (mstore : C → I → FunctionMock P R) (kstore : C → I → FunctionFake F)
      (sstore : C → I → FunctionStub S) (c c' : C) (i i' : I)
      (mop mop' : MockOp P R) (kop : FakeOp F) (sop : StubOp S),
      ¬(c' = c ∧ i' = i) →
      (storeApply mockApplyOp mstore c i mop c' i' = mstore c' i') ∧
      (storeApply fakeApplyOp kstore c i kop c' i' = kstore c' i') ∧
      (storeApply stubApplyOp sstore c i sop c' i' = sstore c' i') ∧
      (mockOpResult mop' (storeApply mockApplyOp mstore c i mop c' i') =
        mockOpResult mop' (mstore c' i')) := by
  intro C I P R F S _ _ _ mstore kstore sstore c c' i i' mop mop' kop sop h
  refine ⟨?_, ?_, ?_, ?_⟩ <;> simp [storeApply, h]

/-- Witness for C9 at concrete stores: a call recorded for the instance at
context 0 leaves the instance of the same function at context 1 in its fresh
state. -/
theorem C9_isolation_frame_witness :
    storeApply mockApplyOp
      (fun _ _ => (FunctionMock.new "fetch_user" : FunctionMock Nat Nat))
      (0 : Nat) ("fetch_user" : String) (MockOp.call 3) 1 "fetch_user" =
      FunctionMock.new "fetch_user" :=
  (C9_isolation_frame
    (fun _ _ => (FunctionMock.new "fetch_user" : FunctionMock Nat Nat))
    (fun _ _ => (FunctionFake.new "fetch_user" : FunctionFake (Nat → Nat)))
    (fun _ _ => (FunctionStub.new "fetch_user" : FunctionStub Nat))
    0 1 "fetch_user" "fetch_user" (MockOp.call 3) MockOp.is_set
    FakeOp.get_implementation StubOp.get_return_value
    (by simp)).1

theorem RustTy.tuple_single_ne (t : RustTy) : RustTy.tuple [t] ≠ t := by
  intro h
  have hs := congrArg sizeOf h
  simp at hs
  omega

/-- C10: the `Params` type computed by `create_param_type` is the unit type
`()` for zero parameters, the single parameter's own type (not a 1-tuple)
for exactly one, and the tuple of all parameter types for two or more; the
generated module uses that one type as the argument type of `call`, of the
implementation given to `mock_implementation`, and of `assert_with`, and the
forwarded argument expression is the bare name for a single parameter. -/
theorem C10_param_type_shape :
    ∀ (t t1 t2 : RustTy) (ts : List RustTy) (tys : List RustTy)
      (names : List String) (o : Option RustTy) (n : String),
      (create_param_type [] = RustTy.tuple []) ∧
      (create_param_type [t] = t) ∧
      (create_param_type [t] ≠ RustTy.tuple [t] ∨ RustTy.tuple [t] = t) ∧
      (create_param_type (t1 :: t2 :: ts) = RustTy.tuple (t1 :: t2 :: ts)) ∧
      (create_tuple_from_param_names [n] = TupleExpr.name n) ∧
      ((mock_lib_generated_module tys names o).callParamTy =
        create_param_type tys) ∧
      ((mock_lib_generated_module tys names o).assertWithParamTy =
        create_param_type tys) ∧
      ((mock_lib_generated_module tys names o).mockImplementationFnTy =
        RustTy.fnPtr (create_param_type tys) (extract_return_type o)) ∧
      ((mock_lib_generated_module tys names o).callForwarded =
        create_tuple_from_param_names names) := by
  intro t t1 t2 ts tys names o n
  refine ⟨rfl, rfl, ?_, rfl, rfl, rfl, rfl, rfl, rfl⟩
  left
  rw [show create_param_type [t] = t from rfl]
  exact fun h => RustTy.tuple_single_ne t h.symm

/-- C1 counterexample: the claim asserts that for stubs, too, the generated
test-build call path checks `is_set()` and falls back to the original
function body when the stub is unconfigured.  At the concrete input of an
unconfigured stub for `get_port` whose original body returns `8080`, the
function emitted by `create_stub_function` (the body is exactly
`get_return_value()`) fails with `NotConfigured` instead of returning the
original body's value. -/
theorem C1_stub_counterexample :
    (stubGeneratedFn (FunctionStub.new "get_port" : FunctionStub Nat) =
      Except.error (FnError.notConfigured "get_port")) ∧
    (stubGeneratedFn (FunctionStub.new "get_port" : FunctionStub Nat) ≠
      Except.ok 8080) := by
  refine ⟨rfl, ?_⟩
  intro h
  rw [show stubGeneratedFn (FunctionStub.new "get_port" : FunctionStub Nat) =
    Except.error (FnError.notConfigured "get_port") from rfl] at h
  exact Except.noConfusion h

/-- C1 amended: for mocks and fakes the generated call path invokes the
original implementation unconditionally in non-test builds, and in test
builds checks `is_set()` and dispatches to the double (`call` for mocks,
`get_implementation()(...)` for fakes) when set, falling back to the
original body otherwise.  For stubs the transformer instead emits a separate
`_stub`-suffixed function whose body unconditionally calls
`get_return_value()` — no `is_set()` check and no fallback, failing with
`NotConfigured` when unconfigured — while non-test builds bind the call site
to the unchanged original function. -/
theorem C1_amended_call_paths :
    ∀ {P R : Type} (m : FunctionMock P R) (k : FunctionFake (P → R))
      (st : FunctionStub R) (orig : P → R) (f : P → R) (p : P),
      (mockGeneratedFn BuildMode.production m orig p =
        (m, Except.ok (orig p))) ∧
      (fakeGeneratedFn BuildMode.production k orig p = Except.ok (orig p)) ∧
      (m.implementation = some f →
        mockGeneratedFn BuildMode.test m orig p =
          ((m.call p).1, Except.ok (f p))) ∧
      (m.is_set = false →
        mockGeneratedFn BuildMode.test m orig p = (m, Except.ok (orig p))) ∧
      (k.implementation = some f →
        fakeGeneratedFn BuildMode.test k orig p = Except.ok (f p)) ∧
      (k.is_set = false →
        fakeGeneratedFn BuildMode.test k orig p = Except.ok (orig p)) ∧
      (stubGeneratedFn st = st.get_return_value) ∧
      (st.is_set = false →
        stubGeneratedFn st = Except.error (FnError.notConfigured st.name)) ∧
      (useStatementBinding BuildMode.production (Except.ok (orig p))
        (stubGeneratedFn st) = Except.ok (orig p)) ∧
      (useStatementBinding BuildMode.test (Except.ok (orig p))
        (stubGeneratedFn st) = stubGeneratedFn st) := by
  intro P R m k st orig f p
  refine ⟨rfl, rfl, ?_, ?_, ?_, ?_, rfl, ?_, rfl, rfl⟩
  · intro hf
    simp [mockGeneratedFn, FunctionMock.is_set, hf, FunctionMock.call]
  · intro hset
    cases h : m.implementation with
    | some g => rw [FunctionMock.is_set, h] at hset; simp at hset
    | none => simp [mockGeneratedFn, FunctionMock.is_set, h]
  · intro hf
    simp [fakeGeneratedFn, FunctionFake.is_set, hf,
      FunctionFake.get_implementation, Except.map]
  · intro hset
    cases h : k.implementation with
    | some g => rw [FunctionFake.is_set, h] at hset; simp at hset
    | none => simp [fakeGeneratedFn, FunctionFake.is_set, h]
  · intro hset
    cases h : st.value with
    | some v => rw [FunctionStub.is_set, h] at hset; simp at hset
    | none => simp [stubGeneratedFn, FunctionStub.get_return_value, h]

/-- Witness for the amended C1 at concrete doubles: a configured mock
dispatches to the double in test builds, an unconfigured fake falls back to
the original body, and the stub path fails with `NotConfigured`. -/
theorem C1_amended_call_paths_witness :
    (mockGeneratedFn BuildMode.test
      ((FunctionMock.new "fetch_user" : FunctionMock Nat Nat).setup
        (fun n => n + 1)) (fun n => n * 10) 5 =
      ((((FunctionMock.new "fetch_user" : FunctionMock Nat Nat).setup
        (fun n => n + 1)).call 5).1, Except.ok 6)) ∧
    (fakeGeneratedFn BuildMode.test
      (FunctionFake.new "add_two" : FunctionFake (Nat → Nat))
      (fun n => n + 2) 5 = Except.ok 7) ∧
    (stubGeneratedFn (FunctionStub.new "get_port" : FunctionStub Nat) =
      Except.error (FnError.notConfigured "get_port")) := by
  refine ⟨?_, ?_, ?_⟩
  · exact (C1_amended_call_paths
      ((FunctionMock.new "fetch_user" : FunctionMock Nat Nat).setup
        (fun n => n + 1))
      (FunctionFake.new "add_two" : FunctionFake (Nat → Nat))
      (FunctionStub.new "get_port" : FunctionStub Nat)
      (fun n => n * 10) (fun n => n + 1) 5).2.2.1 rfl
  · exact (C1_amended_call_paths
      ((FunctionMock.new "fetch_user" : FunctionMock Nat Nat).setup
        (fun n => n + 1))
      (FunctionFake.new "add_two" : FunctionFake (Nat → Nat))
      (FunctionStub.new "get_port" : FunctionStub Nat)
      (fun n => n + 2) (fun n => n + 1) 5).2.2.2.2.2.1 rfl
  · exact (C1_amended_call_paths
      (FunctionMock.new "fetch_user" : FunctionMock Nat Nat)
      (FunctionFake.new "add_two" : FunctionFake (Nat → Nat))
      (FunctionStub.new "get_port" : FunctionStub Nat)
      (fun n => n * 10) (fun n => n + 1) 5).2.2.2.2.2.2.2.1 rfl

/-- C2 counterexample: the claim asserts that for a mocked function with a
parameter-ignore list, the stored log entries omit ignored positions while
the implementation given to `setup` receives the full parameter tuple.  At
the concrete instance of `fetch_user(db: SqlitePool, id: u32)` with `db`
ignored — so the logged params type is the filtered `u32` — the module
emitted by `create_mock_module` gives `setup` the argument type
`fn(u32) -> Result<String, String>` (the same single `#params_type` as the
storage), not `fn((SqlitePool, u32)) -> Result<String, String>`. -/
theorem C2_setup_param_counterexample :
    ((create_mock_module (RustTy.base "u32")
        (RustTy.base "Result<String, String>") (TupleExpr.name "id")
        [("id", RustTy.base "u32")]).storageParamsTy = RustTy.base "u32") ∧
    ((create_mock_module (RustTy.base "u32")
        (RustTy.base "Result<String, String>") (TupleExpr.name "id")
        [("id", RustTy.base "u32")]).setupFnTy =
      RustTy.fnPtr (RustTy.base "u32")
        (RustTy.base "Result<String, String>")) ∧
    ((create_mock_module (RustTy.base "u32")
        (RustTy.base "Result<String, String>") (TupleExpr.name "id")
        [("id", RustTy.base "u32")]).setupFnTy ≠
      RustTy.fnPtr
        (RustTy.tuple [RustTy.base "SqlitePool", RustTy.base "u32"])
        (RustTy.base "Result<String, String>")) := by
  refine ⟨rfl, rfl, ?_⟩
  intro h
  rw [show (create_mock_module (RustTy.base "u32")
    (RustTy.base "Result<String, String>") (TupleExpr.name "id")
    [("id", RustTy.base "u32")]).setupFnTy =
    RustTy.fnPtr (RustTy.base "u32")
      (RustTy.base "Result<String, String>") from rfl] at h
  injection h with h1 h2
  exact RustTy.noConfusion h1

/-- C2 amended: in the module emitted by `create_mock_module`, the
thread-local storage's params type, the argument type of `call` and the
parameter type of the implementation given to `setup` are all the single
params type supplied at generation (the tuple with ignored positions
omitted), and `assert_with` forwards the tuple built from the non-ignored
parameters; ignored positions are dropped uniformly from recording,
assertion and dispatch alike, and the exact value that is appended to the
log is the value the configured implementation is invoked with. -/
theorem C2_amended_uniform_filtered_params :
    ∀ (pt rt : RustTy) (tup : TupleExpr) (fi : List (String × RustTy))
      {P R : Type} (m : FunctionMock P R) (f : P → R) (p : P),
      ((create_mock_module pt rt tup fi).storageParamsTy = pt) ∧
      ((create_mock_module pt rt tup fi).callParamTy = pt) ∧
      ((create_mock_module pt rt tup fi).setupFnTy = RustTy.fnPtr pt rt) ∧
      ((create_mock_module pt rt tup fi).assertWithInputs = fi) ∧
      ((create_mock_module pt rt tup fi).assertWithForwarded = tup) ∧
      (m.implementation = some f →
        (m.call p).1.calls = m.calls ++ [p] ∧
        (m.call p).2 = Except.ok (f p)) := by
  intro pt rt tup fi P R m f p
  refine ⟨rfl, rfl, rfl, rfl, rfl, ?_⟩
  intro hf
  exact ⟨by rw [FunctionMock.call_fst], by simp [FunctionMock.call, hf]⟩

/-- Witness for the amended C2: at the `fetch_user` instance with `db`
ignored, storage, `call` and `setup` all use the filtered type `u32`, and a
configured mock logs exactly the value it dispatches. -/
theorem C2_amended_uniform_filtered_params_witness :
    ((create_mock_module (RustTy.base "u32")
        (RustTy.base "Result<String, String>") (TupleExpr.name "id")
        [("id", RustTy.base "u32")]).callParamTy = RustTy.base "u32") ∧
    ((((FunctionMock.new "fetch_user" : FunctionMock Nat Nat).setup
        (fun n => n + 1)).call 42).1.calls = [42]) ∧
    ((((FunctionMock.new "fetch_user" : FunctionMock Nat Nat).setup
        (fun n => n + 1)).call 42).2 = Except.ok 43) := by
  have h := C2_amended_uniform_filtered_params (RustTy.base "u32")
    (RustTy.base "Result<String, String>") (TupleExpr.name "id")
    [("id", RustTy.base "u32")]
    ((FunctionMock.new "fetch_user" : FunctionMock Nat Nat).setup
      (fun n => n + 1)) (fun n => n + 1) 42
  exact ⟨h.2.1, (h.2.2.2.2.2 rfl).1, (h.2.2.2.2.2 rfl).2⟩

/-- C8: for asynchronous original functions handled by the transformer, the
stored implementation type is always a synchronous function-pointer (or
plain value) type mentioning no future, and the generated async body adapts
the synchronous configured implementation's result into the asynchronous
calling convention: the emitted future resolves to exactly the synchronous
result. -/
theorem C8_async_adapts_sync_storage :
    ∀ (pt rt : RustTy) {P R : Type} (m : FunctionMock P R)
      (k : FunctionFake (P → R)) (st : FunctionStub R) (orig : P → R)
      (f : P → R) (v : R) (p : P),
      (fakeStorageFnTy pt rt = RustTy.fnPtr pt rt) ∧
      (mockStorageFnTy pt rt = RustTy.fnPtr pt rt) ∧
      (pt.hasFuture = false → rt.hasFuture = false →
        (fakeStorageFnTy pt rt).hasFuture = false ∧
        (mockStorageFnTy pt rt).hasFuture = false ∧
        (stubStorageValueTy rt).hasFuture = false) ∧
      (m.implementation = some f →
        (mockGeneratedFnAsync BuildMode.test m orig p).2.value =
          Except.ok (f p)) ∧
      (k.implementation = some f →
        (fakeGeneratedFnAsync BuildMode.test k orig p).value =
          Except.ok (f p)) ∧
      (st.value = some v →
        (stubGeneratedFnAsync st).value = Except.ok v) := by
  intro pt rt P R m k st orig f v p
  refine ⟨rfl, rfl, ?_, ?_, ?_, ?_⟩
  · intro hp hr
    exact ⟨by simp [fakeStorageFnTy, RustTy.hasFuture, hp, hr],
      by simp [mockStorageFnTy, RustTy.hasFuture, hp, hr],
      by simpa [stubStorageValueTy] using hr⟩
  · intro hf
    simp [mockGeneratedFnAsync, mockGeneratedFn, FunctionMock.is_set, hf,
      FunctionMock.call]
  · intro hf
    simp [fakeGeneratedFnAsync, fakeGeneratedFn, FunctionFake.is_set, hf,
      FunctionFake.get_implementation, Except.map]
  · intro hv
    simp [stubGeneratedFnAsync, stubGeneratedFn,
      FunctionStub.get_return_value, hv]

/-- Witness for C8 at a concrete async signature `async fn fetch(id: u32) ->
String`: the stored fake type is the synchronous `fn(u32) -> String` with no
future in it, and a configured fake's async path resolves to the synchronous
implementation's result. -/
theorem C8_async_adapts_sync_storage_witness :
    (fakeStorageFnTy (RustTy.base "u32") (RustTy.base "String") =
      RustTy.fnPtr (RustTy.base "u32") (RustTy.base "String")) ∧
    ((fakeStorageFnTy (RustTy.base "u32") (RustTy.base "String")).hasFuture =
      false) ∧
    ((fakeGeneratedFnAsync BuildMode.test
      ((FunctionFake.new "fetch" : FunctionFake (Nat → Nat)).setup
        (fun n => n + 2)) (fun n => n * 10) 5).value = Except.ok 7) := by
  have h := C8_async_adapts_sync_storage (RustTy.base "u32")
    (RustTy.base "String")
    (FunctionMock.new "fetch" : FunctionMock Nat Nat)
    ((FunctionFake.new "fetch" : FunctionFake (Nat → Nat)).setup
      (fun n => n + 2))
    (FunctionStub.new "fetch" : FunctionStub Nat)
    (fun n => n * 10) (fun n => n + 2) 0 5
  exact ⟨h.1, (h.2.2.1 rfl rfl).1, h.2.2.2.2.1 rfl⟩
